import Mathlib

/-!
Shallow embedding of the query-builder core of the `udv` universal data
viewer (Go).  Sources embedded here:

* `internal/adapter/postgres/builder.go` — the relational (PostgreSQL)
  query builder (`QueryBuilder.BuildQuery` and its helpers).
* the MongoDB query builder (`BuildQuery`, `buildFindQuery`,
  `buildComparisonFilter`, `convertOperator`, `buildInsert`,
  `buildUpdate`, `buildDelete`).
* `internal/schema_processor` — `ResolveFieldType`,
  `areAllNumericStrings`, `isUUID`.

Conventions of the embedding:

* Go `interface{}` parameter values are embedded as the inductive `Val`.
* Go maps (`map[string]interface{}`, `map[FieldType]int`) are embedded as
  association lists recording ONE possible iteration order; Go randomizes
  map iteration order, so a fact that holds for the program must hold for
  every such list, and a behaviour exhibited by one list is a possible run.
* Go pointers that the source checks against `nil` become `Option`;
  fallible functions return `Except String` mirroring Go `error` returns.
  An unchecked nil-pointer dereference (a Go runtime panic) is modelled by
  the distinguished result `GoRes.nilDeref`.
* Go `int` counters and counts are embedded as `Nat` where the source only
  ever stores non-negative values (parameter counters, sampling counts);
  Go integer division on such values coincides with `Nat` division.
* The `float64` nullability comparison in `ResolveFieldType` is embedded
  with exact rational arithmetic (`ℚ`): `float64(null) > float64(total)*0.1`
  becomes `(null : ℚ) > (total : ℚ) * (1/10)`.
* Strings handled character-wise (UUID probing) are embedded as `List Char`.
-/

namespace Udv

/-- Embedding of Go `interface{}` values that flow through the builders. -/
inductive Val where
  | str (s : String)
  | intV (n : Int)
  | boolV (b : Bool)
  | listV (vs : List Val)
  | nullV

/-- The DSL operator constants of `internal/dsl` (`OpEqual = "="`, …). -/
inductive Op where
  | eq | ne | gt | gte | lt | lte
  | inOp | notIn | isNull | notNull
  | like | ilike | startsWith | endsWith | contains
  | between | before | after
deriving DecidableEq

/-- The Go string value of each `dsl.Operator` constant. -/
def Op.goString : Op → String
  | .eq => "="
  | .ne => "!="
  | .gt => ">"
  | .gte => ">="
  | .lt => "<"
  | .lte => "<="
  | .inOp => "in"
  | .notIn => "not_in"
  | .isNull => "is_null"
  | .notNull => "not_null"
  | .like => "like"
  | .ilike => "ilike"
  | .startsWith => "starts_with"
  | .endsWith => "ends_with"
  | .contains => "contains"
  | .between => "between"
  | .before => "before"
  | .after => "after"

/-- `planner.TypedColumnRef`: alias, column name and data type.  Data types
are the Go `planner.FieldType` string constants ("uuid", "json", …). -/
structure TypedColumnRef where
  tableAlias : String
  columnName : String
  dataType : String

/-- `planner.ValueIR` — the planner's wrapper around a DSL value.
Modelled from the spec: the planner package `internal/planner` is not under
`src/`; per spec §3.2 a Comparison carries `value : TypedValue?`, optional,
and the value is absent for the no-value operators `is_null`/`not_null`.
The builders receive it as a nilable pointer (`f.Value`). -/
structure ValueIR where
  value : Val

/-- `planner.ComparisonFilterIR`. -/
structure ComparisonFilterIR where
  left : TypedColumnRef
  operator : Op
  value : Option ValueIR

/-- `planner.FilterExpr` — comparison leaves and logical nodes
(`LogicalFilterIR` with `Op` string and `Nodes`). -/
inductive FilterExpr where
  | comparison (f : ComparisonFilterIR)
  | logical (op : String) (nodes : List FilterExpr)

/-- `planner.ModelRef` (root model of a plan). -/
structure ModelRef where
  table : String
  aliasName : String
  primaryKey : TypedColumnRef

/-- `planner.SelectExpr`. -/
structure SelectExpr where
  column : TypedColumnRef
  aliasName : String

/-- `planner.AggregateExpr`; `function` holds the Go constant string
("count", "sum", "avg", "min", "max"). -/
structure AggregateExpr where
  function : String
  column : Option TypedColumnRef
  aliasName : String

/-- `planner.GroupByExpr`. -/
structure GroupByExpr where
  column : TypedColumnRef

/-- `planner.SortExpr`. -/
structure SortExpr where
  column : Option TypedColumnRef
  aggregate : Option AggregateExpr
  direction : String

/-- `planner.Pagination`. -/
structure Pagination where
  limit : Int
  offset : Int

/-- `planner.QueryPlan`.  `data` is the iteration order of the Go map
`map[string]interface{}` (see the header comment); `filters` and `id` are
nilable in Go.  The nil-plan / nil-root-model guards of the builders are
not modelled: every embedded plan carries its root model. -/
structure QueryPlan where
  operation : String
  rootModel : ModelRef
  selectExprs : List SelectExpr
  filters : Option FilterExpr
  groupBy : List GroupByExpr
  aggregates : List AggregateExpr
  sort : List SortExpr
  pagination : Pagination
  data : List (String × Val)
  id : Option Val

namespace Pg

/-! ## `internal/adapter/postgres/builder.go` -/

/-- `getPostgreSQLType`. -/
def getPostgreSQLType (fieldType : String) : String :=
  if fieldType = "uuid" then "uuid"
  else if fieldType = "json" then "jsonb"
  else if fieldType = "binary" then "bytea"
  else if fieldType = "timestamp" ∨ fieldType = "date" ∨ fieldType = "datetime" then "timestamp"
  else ""

/-- `needsTypeCasting`. -/
def needsTypeCasting (fieldType : String) : Bool :=
  fieldType = "uuid" ∨ fieldType = "json" ∨ fieldType = "binary" ∨ fieldType = "timestamp"

/-- Go `strings.TrimPrefix(s, "$")`: drops one leading `$` when present. -/
def trimDollar (s : String) : String :=
  match s.data with
  | '$' :: rest => ⟨rest⟩
  | _ => s

/-- `addTypeCast`. -/
def addTypeCast (paramPlaceholder : String) (fieldType : String) : String :=
  let pgType := getPostgreSQLType fieldType
  if pgType = "" then paramPlaceholder
  else "$" ++ trimDollar paramPlaceholder ++ "::" ++ pgType

/-- The mutable state of `QueryBuilder` (`params`, `paramCount`). -/
structure BState where
  params : List Val
  paramCount : Nat

/-- `buildComparisonFilter`, with the builder state threaded explicitly.
Each case mirrors the corresponding `case` arm of the Go `switch`. -/
def buildComparisonFilter (f : ComparisonFilterIR) (st : BState) :
    Except String (String × BState) :=
  let colName := f.left.tableAlias ++ "." ++ f.left.columnName
  match f.operator with
  | .eq =>
    match f.value with
    | none => .error "value required for = operator"
    | some v =>
      let st' : BState := ⟨st.params ++ [v.value], st.paramCount + 1⟩
      let ph := "$" ++ toString st'.paramCount
      let ph := if needsTypeCasting f.left.dataType then addTypeCast ph f.left.dataType else ph
      .ok (colName ++ " = " ++ ph, st')
  | .ne =>
    match f.value with
    | none => .error "value required for != operator"
    | some v =>
      let st' : BState := ⟨st.params ++ [v.value], st.paramCount + 1⟩
      let ph := "$" ++ toString st'.paramCount
      let ph := if needsTypeCasting f.left.dataType then addTypeCast ph f.left.dataType else ph
      .ok (colName ++ " != " ++ ph, st')
  | .gt =>
    match f.value with
    | none => .error "value required for > operator"
    | some v =>
      let st' : BState := ⟨st.params ++ [v.value], st.paramCount + 1⟩
      .ok (colName ++ " > $" ++ toString st'.paramCount, st')
  | .gte =>
    match f.value with
    | none => .error "value required for >= operator"
    | some v =>
      let st' : BState := ⟨st.params ++ [v.value], st.paramCount + 1⟩
      .ok (colName ++ " >= $" ++ toString st'.paramCount, st')
  | .lt =>
    match f.value with
    | none => .error "value required for < operator"
    | some v =>
      let st' : BState := ⟨st.params ++ [v.value], st.paramCount + 1⟩
      .ok (colName ++ " < $" ++ toString st'.paramCount, st')
  | .lte =>
    match f.value with
    | none => .error "value required for <= operator"
    | some v =>
      let st' : BState := ⟨st.params ++ [v.value], st.paramCount + 1⟩
      .ok (colName ++ " <= $" ++ toString st'.paramCount, st')
  | .inOp =>
    match f.value with
    | none => .error "value required for in operator"
    | some v =>
      let st' : BState := ⟨st.params ++ [v.value], st.paramCount + 1⟩
      let ph := "$" ++ toString st'.paramCount
      let ph := if needsTypeCasting f.left.dataType then addTypeCast ph f.left.dataType else ph
      .ok (colName ++ " = ANY(" ++ ph ++ ")", st')
  | .notIn =>
    match f.value with
    | none => .error "value required for not_in operator"
    | some v =>
      let st' : BState := ⟨st.params ++ [v.value], st.paramCount + 1⟩
      let ph := "$" ++ toString st'.paramCount
      let ph := if needsTypeCasting f.left.dataType then addTypeCast ph f.left.dataType else ph
      .ok (colName ++ " != ALL(" ++ ph ++ ")", st')
  | .isNull => .ok (colName ++ " IS NULL", st)
  | .notNull => .ok (colName ++ " IS NOT NULL", st)
  | .like =>
    match f.value with
    | none => .error "value required for like operator"
    | some v =>
      let st' : BState := ⟨st.params ++ [v.value], st.paramCount + 1⟩
      .ok (colName ++ " LIKE $" ++ toString st'.paramCount, st')
  | .ilike =>
    match f.value with
    | none => .error "value required for ilike operator"
    | some v =>
      let st' : BState := ⟨st.params ++ [v.value], st.paramCount + 1⟩
      .ok (colName ++ " ILIKE $" ++ toString st'.paramCount, st')
  | .startsWith =>
    match f.value with
    | none => .error "value required for starts_with operator"
    | some v =>
      match v.value with
      | .str s =>
        let st' : BState := ⟨st.params ++ [.str (s ++ "%")], st.paramCount + 1⟩
        .ok (colName ++ " LIKE $" ++ toString st'.paramCount, st')
      | _ => .error "interface conversion: value is not string"
  | .endsWith =>
    match f.value with
    | none => .error "value required for ends_with operator"
    | some v =>
      match v.value with
      | .str s =>
        let st' : BState := ⟨st.params ++ [.str ("%" ++ s)], st.paramCount + 1⟩
        .ok (colName ++ " LIKE $" ++ toString st'.paramCount, st')
      | _ => .error "interface conversion: value is not string"
  | .contains =>
    match f.value with
    | none => .error "value required for contains operator"
    | some v =>
      match v.value with
      | .str s =>
        let st' : BState := ⟨st.params ++ [.str ("%" ++ s ++ "%")], st.paramCount + 1⟩
        .ok (colName ++ " LIKE $" ++ toString st'.paramCount, st')
      | _ => .error "interface conversion: value is not string"
  | .between =>
    -- The source increments the counter once, pushes the (pair) value once,
    -- and prints both `$paramCount` and `$paramCount+1`.
    match f.value with
    | none => .error "value required for between operator"
    | some v =>
      let st' : BState := ⟨st.params ++ [v.value], st.paramCount + 1⟩
      .ok (colName ++ " BETWEEN $" ++ toString st'.paramCount ++ " AND $" ++
            toString (st'.paramCount + 1), st')
  | .before =>
    match f.value with
    | none => .error "value required for before operator"
    | some v =>
      let st' : BState := ⟨st.params ++ [v.value], st.paramCount + 1⟩
      .ok (colName ++ " < $" ++ toString st'.paramCount, st')
  | .after =>
    match f.value with
    | none => .error "value required for after operator"
    | some v =>
      let st' : BState := ⟨st.params ++ [v.value], st.paramCount + 1⟩
      .ok (colName ++ " > $" ++ toString st'.paramCount, st')

mutual

/-- `buildFilterExpression`. -/
def buildFilterExpression (expr : FilterExpr) (st : BState) :
    Except String (String × BState) :=
  match expr with
  | .comparison f => buildComparisonFilter f st
  | .logical op nodes => buildLogicalFilter op nodes st
termination_by (sizeOf expr, 1)

/-- `buildLogicalFilter`. -/
def buildLogicalFilter (op : String) (nodes : List FilterExpr) (st : BState) :
    Except String (String × BState) :=
  match nodes with
  | [] => .error "logical filter has no nodes"
  | n :: rest =>
    match buildFilterParts (n :: rest) st with
    | .error e => .error e
    | .ok (parts, st') =>
      if op = "AND" then .ok ("(" ++ String.intercalate " AND " parts ++ ")", st')
      else if op = "OR" then .ok ("(" ++ String.intercalate " OR " parts ++ ")", st')
      else if op = "NOT" then
        match parts with
        | [p] => .ok ("NOT " ++ p, st')
        | _ => .error "NOT filter must have exactly one node"
      else .error ("unknown logical operator: " ++ op)
termination_by (sizeOf nodes, 2)

/-- The `for _, node := range f.Nodes` loop of `buildLogicalFilter`. -/
def buildFilterParts (nodes : List FilterExpr) (st : BState) :
    Except String (List String × BState) :=
  match nodes with
  | [] => .ok ([], st)
  | n :: rest =>
    match buildFilterExpression n st with
    | .error e => .error e
    | .ok (s, st') =>
      match buildFilterParts rest st' with
      | .error e => .error e
      | .ok (ss, st'') => .ok (s :: ss, st'')
termination_by (sizeOf nodes, 0)

end

/-- `buildWhereClause`. -/
def buildWhereClause (filterExpr : FilterExpr) (st : BState) :
    Except String (String × BState) :=
  match buildFilterExpression filterExpr st with
  | .error e => .error e
  | .ok (filterSQL, st') => .ok ("WHERE " ++ filterSQL, st')

/-- `buildAggregateExpression`. -/
def buildAggregateExpression (agg : AggregateExpr) : String :=
  let aggSQL :=
    if agg.function = "count" then
      match agg.column with
      | none => "COUNT(*)"
      | some c => "COUNT(" ++ c.tableAlias ++ "." ++ c.columnName ++ ")"
    else if agg.function = "sum" then
      match agg.column with
      | some c => "SUM(" ++ c.tableAlias ++ "." ++ c.columnName ++ ")"
      | none => "SUM(.)"
    else if agg.function = "avg" then
      match agg.column with
      | some c => "AVG(" ++ c.tableAlias ++ "." ++ c.columnName ++ ")"
      | none => "AVG(.)"
    else if agg.function = "min" then
      match agg.column with
      | some c => "MIN(" ++ c.tableAlias ++ "." ++ c.columnName ++ ")"
      | none => "MIN(.)"
    else if agg.function = "max" then
      match agg.column with
      | some c => "MAX(" ++ c.tableAlias ++ "." ++ c.columnName ++ ")"
      | none => "MAX(.)"
    else "COUNT(*)"
  aggSQL ++ " AS " ++ agg.aliasName

/-- `buildSelectClause`. -/
def buildSelectClause (plan : QueryPlan) : String :=
  let columns : List String :=
    (if !plan.selectExprs.isEmpty then
      plan.selectExprs.map fun expr =>
        let colName := expr.column.tableAlias ++ "." ++ expr.column.columnName
        if expr.aliasName ≠ expr.column.columnName then colName ++ " AS " ++ expr.aliasName
        else colName
    else [])
  let columns := columns ++
    (if !plan.groupBy.isEmpty && plan.selectExprs.isEmpty then
      plan.groupBy.map fun g => g.column.tableAlias ++ "." ++ g.column.columnName
    else [])
  let columns := columns ++ plan.aggregates.map buildAggregateExpression
  if columns.isEmpty then "SELECT *"
  else "SELECT " ++ String.intercalate ", " columns

/-- `buildFromClause`. -/
def buildFromClause (plan : QueryPlan) : String :=
  "FROM " ++ plan.rootModel.table ++ " " ++ plan.rootModel.aliasName

/-- `buildGroupByClause`. -/
def buildGroupByClause (plan : QueryPlan) : String :=
  "GROUP BY " ++ String.intercalate ", "
    (plan.groupBy.map fun g => g.column.tableAlias ++ "." ++ g.column.columnName)

/-- `buildOrderByClause`. -/
def buildOrderByClause (plan : QueryPlan) : String :=
  let sortCols := plan.sort.map fun s =>
    let colRef :=
      match s.column with
      | some c => c.tableAlias ++ "." ++ c.columnName
      | none =>
        match s.aggregate with
        | some a => a.aliasName
        | none => ""
    let direction := if s.direction = "DESC" then "DESC" else "ASC"
    colRef ++ " " ++ direction
  "ORDER BY " ++ String.intercalate ", " sortCols

/-- `buildPaginationClause` — pushes limit and offset as parameters. -/
def buildPaginationClause (plan : QueryPlan) (st : BState) : String × BState :=
  let limitParam := st.paramCount + 1
  let offsetParam := st.paramCount + 2
  let st' : BState :=
    ⟨st.params ++ [.intV plan.pagination.limit, .intV plan.pagination.offset],
     st.paramCount + 2⟩
  ("LIMIT $" ++ toString limitParam ++ " OFFSET $" ++ toString offsetParam, st')

/-- `buildSelect`. -/
def buildSelect (plan : QueryPlan) (st : BState) :
    Except String (String × List Val) :=
  let parts := [buildSelectClause plan, buildFromClause plan]
  match (match plan.filters with
         | none => Except.ok (parts, st)
         | some fe =>
            match buildWhereClause fe st with
            | .error e => .error e
            | .ok (w, st') => .ok (parts ++ [w], st')) with
  | .error e => .error e
  | .ok (parts, st) =>
    let parts := if !plan.groupBy.isEmpty then parts ++ [buildGroupByClause plan] else parts
    let parts := if !plan.sort.isEmpty then parts ++ [buildOrderByClause plan] else parts
    let (pag, st) := buildPaginationClause plan st
    let parts := parts ++ [pag]
    .ok (String.intercalate " " parts ++ ";", st.params)

/-- The `for field, value := range plan.Data` loop of `buildInsert`:
collects field names, placeholders and parameters. -/
def insertLoop (data : List (String × Val)) (st : BState) :
    List String × List String × BState :=
  match data with
  | [] => ([], [], st)
  | (field, value) :: rest =>
    let st' : BState := ⟨st.params ++ [value], st.paramCount + 1⟩
    let ph := "$" ++ toString st'.paramCount
    let (fs, phs, st'') := insertLoop rest st'
    (field :: fs, ph :: phs, st'')

/-- `buildInsert`. -/
def buildInsert (plan : QueryPlan) (st : BState) :
    Except String (String × List Val) :=
  if plan.data.isEmpty then .error "data is required for insert operation"
  else
    let (fields, placeholders, st') := insertLoop plan.data st
    .ok ("INSERT INTO " ++ plan.rootModel.table ++ " (" ++
          String.intercalate ", " fields ++ ") VALUES (" ++
          String.intercalate ", " placeholders ++ ") RETURNING *;",
         st'.params)

/-- The `for field, value := range plan.Data` loop of `buildUpdate`:
collects `field = $n` fragments and parameters. -/
def updateSetsLoop (data : List (String × Val)) (st : BState) :
    List String × BState :=
  match data with
  | [] => ([], st)
  | (field, value) :: rest =>
    let st' : BState := ⟨st.params ++ [value], st.paramCount + 1⟩
    let s := field ++ " = $" ++ toString st'.paramCount
    let (ss, st'') := updateSetsLoop rest st'
    (s :: ss, st'')

/-- `buildUpdate`. -/
def buildUpdate (plan : QueryPlan) (st : BState) :
    Except String (String × List Val) :=
  if plan.data.isEmpty then .error "data is required for update operation"
  else
    let (sets, st') := updateSetsLoop plan.data st
    match plan.id with
    | some i =>
      let st'' : BState := ⟨st'.params ++ [i], st'.paramCount + 1⟩
      let whereStr := "WHERE " ++ plan.rootModel.primaryKey.columnName ++ " = $" ++
        toString st''.paramCount
      .ok ("UPDATE " ++ plan.rootModel.table ++ " SET " ++
            String.intercalate ", " sets ++ " " ++ whereStr ++ " RETURNING *;",
           st''.params)
    | none =>
      match plan.filters with
      | some fe =>
        match buildWhereClause fe st' with
        | .error e => .error e
        | .ok (w, st'') =>
          .ok ("UPDATE " ++ plan.rootModel.table ++ " SET " ++
                String.intercalate ", " sets ++ " " ++ w ++ " RETURNING *;",
               st''.params)
      | none => .error "id or filters required for update operation"

/-- `buildDelete`. -/
def buildDelete (plan : QueryPlan) (st : BState) :
    Except String (String × List Val) :=
  match plan.id with
  | some i =>
    let st' : BState := ⟨st.params ++ [i], st.paramCount + 1⟩
    let whereStr := "WHERE " ++ plan.rootModel.primaryKey.columnName ++ " = $" ++
      toString st'.paramCount
    .ok ("DELETE FROM " ++ plan.rootModel.table ++ " " ++ whereStr ++ ";", st'.params)
  | none =>
    match plan.filters with
    | some fe =>
      match buildWhereClause fe st with
      | .error e => .error e
      | .ok (w, st') =>
        .ok ("DELETE FROM " ++ plan.rootModel.table ++ " " ++ w ++ ";", st'.params)
    | none => .error "id or filters required for delete operation"

/-- `QueryBuilder.BuildQuery` — resets the builder state and routes on the
plan operation (empty operation defaults to select). -/
def BuildQuery (plan : QueryPlan) : Except String (String × List Val) :=
  let st : BState := ⟨[], 0⟩
  let operation := if plan.operation = "" then "select" else plan.operation
  if operation = "create" then buildInsert plan st
  else if operation = "update" then buildUpdate plan st
  else if operation = "delete" then buildDelete plan st
  else if operation = "select" then buildSelect plan st
  else .error ("unsupported operation: " ++ operation)

end Pg

namespace Mongo

/-! ## The MongoDB query builder (`internal/adapter/mongodb`) -/

/-- BSON values built by the MongoDB builder: primitives (`Val`),
documents (`bson.M`, one insertion order) and arrays of documents. -/
inductive Bson where
  | prim (v : Val)
  | doc (entries : List (String × Bson))
  | arr (xs : List Bson)

/-- The result of a Go call that may return normally, return an `error`,
or crash with a runtime panic (nil-pointer dereference). -/
inductive GoRes (α : Type) where
  | ok (a : α)
  | goError (msg : String)
  | nilDeref

/-- The `options.Find()` record as configured by `buildFindQuery`. -/
structure FindOptions where
  limit : Option Int
  skip : Option Int
  sortDoc : Option (List (String × Int))

/-- `MongoQuery` (`internal/adapter/mongodb/types.go`); unset Go fields
(`nil` interfaces) are `none`. -/
structure MongoQuery where
  collection : String
  operation : String
  filter : Option Bson
  pipeline : Option Bson
  update : Option Bson
  document : Option Bson
  options : Option FindOptions

/-- `convertOperator` — maps a DSL operator string and value to a MongoDB
operator and value. -/
def convertOperator (op : String) (value : Val) : GoRes (String × Val) :=
  if op = "=" ∨ op = "eq" then .ok ("$eq", value)
  else if op = "!=" ∨ op = "ne" then .ok ("$ne", value)
  else if op = ">" ∨ op = "gt" then .ok ("$gt", value)
  else if op = ">=" ∨ op = "gte" then .ok ("$gte", value)
  else if op = "<" ∨ op = "lt" then .ok ("$lt", value)
  else if op = "<=" ∨ op = "lte" then .ok ("$lte", value)
  else if op = "in" then .ok ("$in", value)
  else if op = "not_in" ∨ op = "nin" then .ok ("$nin", value)
  else if op = "like" ∨ op = "contains" then
    match value with
    | .str s => .ok ("$regex", .str s)
    | _ => .goError "like/contains operator requires string value"
  else if op = "is_null" then .ok ("$exists", .boolV false)
  else if op = "not_null" then .ok ("$exists", .boolV true)
  else .goError ("unsupported operator: " ++ op)

/-- `buildComparisonFilter` — note that the source reads `f.Value.Value`
unconditionally, so a comparison whose value pointer is nil (the no-value
operators per spec §3.2) dereferences a nil pointer before
`convertOperator` can run. -/
def buildComparisonFilter (f : ComparisonFilterIR) : GoRes Bson :=
  let fieldName := f.left.columnName
  match f.value with
  | none => .nilDeref
  | some vIR =>
    match convertOperator f.operator.goString vIR.value with
    | .goError e => .goError e
    | .nilDeref => .nilDeref
    | .ok (mongoOp, mongoVal) =>
      if mongoOp = "$eq" then .ok (.doc [(fieldName, .prim mongoVal)])
      else .ok (.doc [(fieldName, .doc [(mongoOp, .prim mongoVal)])])

mutual

/-- The non-nil case of `buildFilterFromExpr` (the type switch on the
filter expression). -/
def buildFilterFromExprCore (expr : FilterExpr) : GoRes Bson :=
  match expr with
  | .comparison f => buildComparisonFilter f
  | .logical op nodes => buildLogicalFilter op nodes
termination_by (sizeOf expr, 1)

/-- `buildLogicalFilter` (MongoDB). -/
def buildLogicalFilter (op : String) (nodes : List FilterExpr) : GoRes Bson :=
  if op.toUpper = "AND" then
    match buildClauses nodes with
    | .goError e => .goError e
    | .nilDeref => .nilDeref
    | .ok clauses => .ok (.doc [("$and", .arr clauses)])
  else if op.toUpper = "OR" then
    match buildClauses nodes with
    | .goError e => .goError e
    | .nilDeref => .nilDeref
    | .ok clauses => .ok (.doc [("$or", .arr clauses)])
  else .goError ("unsupported logical operator: " ++ op)
termination_by (sizeOf nodes, 2)

/-- The `for _, node := range f.Nodes` loops of the MongoDB
`buildLogicalFilter`. -/
def buildClauses (nodes : List FilterExpr) : GoRes (List Bson) :=
  match nodes with
  | [] => .ok []
  | n :: rest =>
    match buildFilterFromExprCore n with
    | .goError e => .goError e
    | .nilDeref => .nilDeref
    | .ok c =>
      match buildClauses rest with
      | .goError e => .goError e
      | .nilDeref => .nilDeref
      | .ok cs => .ok (c :: cs)
termination_by (sizeOf nodes, 0)

end

/-- `buildFilterFromExpr` — a nil filter expression compiles to the empty
document `bson.M{}`. -/
def buildFilterFromExpr (expr : Option FilterExpr) : GoRes Bson :=
  match expr with
  | none => .ok (.doc [])
  | some e => buildFilterFromExprCore e

/-- `buildFindQuery`. -/
def buildFindQuery (plan : QueryPlan) : GoRes MongoQuery :=
  match buildFilterFromExpr plan.filters with
  | .goError e => .goError e
  | .nilDeref => .nilDeref
  | .ok filter =>
    let lim := if plan.pagination.limit > 0 then some plan.pagination.limit else none
    let skp := if plan.pagination.offset > 0 then some plan.pagination.offset else none
    let srt :=
      if !plan.sort.isEmpty then
        some (plan.sort.map fun s =>
          let direction : Int := if s.direction.toLower = "desc" then -1 else 1
          let fieldName :=
            match s.column with
            | some c =>
              if c.tableAlias ≠ "" then c.tableAlias ++ "." ++ c.columnName
              else c.columnName
            | none => ""
          (fieldName, direction))
      else none
    .ok { collection := plan.rootModel.table
          operation := "find"
          filter := some filter
          pipeline := none
          update := none
          document := none
          options := some ⟨lim, skp, srt⟩ }

/-- `buildInsert` (MongoDB). -/
def buildInsert (plan : QueryPlan) : GoRes MongoQuery :=
  if plan.data.isEmpty then .goError "insert data required"
  else
    .ok { collection := plan.rootModel.table
          operation := "insert"
          filter := none
          pipeline := none
          update := none
          document := some (.doc (plan.data.map fun p => (p.1, .prim p.2)))
          options := none }

/-- `buildUpdate` (MongoDB) — the filter is compiled from `plan.Filters`
only; `plan.ID` is never consulted. -/
def buildUpdate (plan : QueryPlan) : GoRes MongoQuery :=
  match buildFilterFromExpr plan.filters with
  | .goError e => .goError e
  | .nilDeref => .nilDeref
  | .ok filter =>
    .ok { collection := plan.rootModel.table
          operation := "update"
          filter := some filter
          pipeline := none
          update := some (.doc [("$set", .doc (plan.data.map fun p => (p.1, .prim p.2)))])
          document := none
          options := none }

/-- `buildDelete` (MongoDB) — the filter is compiled from `plan.Filters`
only; `plan.ID` is never consulted. -/
def buildDelete (plan : QueryPlan) : GoRes MongoQuery :=
  match buildFilterFromExpr plan.filters with
  | .goError e => .goError e
  | .nilDeref => .nilDeref
  | .ok filter =>
    .ok { collection := plan.rootModel.table
          operation := "delete"
          filter := some filter
          pipeline := none
          update := none
          document := none
          options := none }

/-- The MongoDB `QueryBuilder.BuildQuery` — routes on the plan operation;
`select` always goes to `buildFindQuery`. -/
def BuildQuery (plan : QueryPlan) : GoRes MongoQuery :=
  if plan.operation = "select" then buildFindQuery plan
  else if plan.operation = "create" then buildInsert plan
  else if plan.operation = "update" then buildUpdate plan
  else if plan.operation = "delete" then buildDelete plan
  else .goError ("unsupported operation: " ++ plan.operation)

end Mongo

namespace SchemaProc

/-! ## `internal/schema_processor` — document-store schema inference -/

/-- `FieldStats` — `typeCounts` is the iteration order of the Go map
`map[FieldType]int` (field types are the Go `FieldType` string constants);
counts are `Nat` (the sampler only increments them from zero). -/
structure FieldStats where
  typeCounts : List (String × Nat)
  totalCount : Nat
  nullCount : Nat
  sampleValues : List Val

/-- Go map lookup `stats.TypeCounts[t]` (0 when absent). -/
def lookupCount (tc : List (String × Nat)) (t : String) : Nat :=
  match tc.find? (fun p => p.1 = t) with
  | some p => p.2
  | none => 0

/-- Go `strconv.Atoi` acceptance: optional sign followed by at least one
digit (the 64-bit range check is not modelled). -/
def atoiAccepts (s : String) : Bool :=
  match s.toList with
  | [] => false
  | c :: rest =>
    let ds := if c = '+' ∨ c = '-' then rest else c :: rest
    !ds.isEmpty && ds.all Char.isDigit

/-- `areAllNumericStrings` — non-string samples are skipped. -/
def areAllNumericStrings (values : List Val) : Bool :=
  values.all fun v =>
    match v with
    | .str s => atoiAccepts s
    | _ => true

/-- The `for fieldType, count := range stats.TypeCounts` max-scan of
`ResolveFieldType`: running `(maxCount, mostCommonType)` accumulator,
starting from Go zero values `(0, "")`; a later entry replaces the
accumulator only with a strictly greater count. -/
def maxScan (tc : List (String × Nat)) : Nat × String :=
  tc.foldl (fun acc p => if p.2 > acc.1 then (p.2, p.1) else acc) (0, "")

/-- `ResolveFieldType` — the `float64` nullability comparison
`float64(NullCount) > float64(TotalCount)*0.1` is embedded with exact
rational arithmetic; `TotalCount/2` is Go integer division on
non-negative counts, i.e. `Nat` division. -/
def ResolveFieldType (stats : Option FieldStats) : String × Bool :=
  match stats with
  | none => ("string", true)
  | some s =>
    if s.typeCounts.isEmpty then ("string", true)
    else
      let (maxCount, mostCommonType) := maxScan s.typeCounts
      let isNullable : Bool := decide ((s.nullCount : ℚ) > (s.totalCount : ℚ) * (1 / 10))
      if maxCount < s.totalCount / 2 then
        if lookupCount s.typeCounts "integer" > 0 ∧ lookupCount s.typeCounts "string" > 0 then
          if areAllNumericStrings s.sampleValues then ("integer", isNullable)
          else (mostCommonType, isNullable)
        else (mostCommonType, isNullable)
      else (mostCommonType, isNullable)

/-- Go `strings.Split(s, "-")` on a character list: splits at every
hyphen; always returns at least one (possibly empty) group. -/
def splitOnDash : List Char → List (List Char)
  | [] => [[]]
  | c :: rest =>
    let r := splitOnDash rest
    if c = '-' then [] :: r
    else
      match r with
      | g :: gs => (c :: g) :: gs
      | [] => [[c]]

/-- `isUUID` (`mongodb_sampler.go`): the probe only checks that splitting
on `-` yields exactly 5 parts and that the string is 36 characters long. -/
def isUUID (s : List Char) : Bool :=
  (splitOnDash s).length = 5 && s.length = 36

/-- Hexadecimal digit predicate (`0-9`, `a-f`, `A-F`). -/
def isHexDigitChar (c : Char) : Bool :=
  c.isDigit || ('a' ≤ c && c ≤ 'f') || ('A' ≤ c && c ≤ 'F')

/-- The UUID canonical shape as the spec words it: hexadecimal digit
groups of lengths 8-4-4-4-12 separated by hyphens.  This is the spec-side
definition used to compare against the source's `isUUID`. -/
def specCanonicalUUIDShape (s : List Char) : Bool :=
  ((splitOnDash s).map List.length) = [8, 4, 4, 4, 12] &&
    (splitOnDash s).all (fun g => g.all isHexDigitChar)

end SchemaProc

/-! ## Specification-side observation functions -/

/-- Splits a character list into its maximal leading digit run and the
remainder (used to read the number of a `$n` placeholder). -/
def digitsSplit : List Char → List Char × List Char
  | [] => ([], [])
  | c :: cs =>
    if c.isDigit then
      let (ds, r) := digitsSplit cs
      (c :: ds, r)
    else ([], c :: cs)

/-- Numeric value of a digit run. -/
def digitsVal (ds : List Char) : Nat :=
  ds.foldl (fun a c => 10 * a + (c.toNat - 48)) 0

/-- All positional-placeholder numbers `$n` occurring in a character list,
left to right.  (A digit run is only read when it directly follows `$`, so
recursing on the unsplit tail visits the same placeholders.) -/
def scanPlaceholders : List Char → List Nat
  | [] => []
  | c :: cs =>
    if c = '$' then
      match digitsSplit cs with
      | ([], _) => scanPlaceholders cs
      | (d :: ds, _) => digitsVal (d :: ds) :: scanPlaceholders cs
    else scanPlaceholders cs

/-- The parameter-binding invariant claimed by the specification (§8.1.1):
the placeholder count equals the parameter count, and every integer in
`[1, len(params)]` occurs exactly once. -/
def paramInvariant (sql : String) (params : List Val) : Bool :=
  let ns := scanPlaceholders sql.toList
  ns.length == params.length &&
    (List.range params.length).all fun i => ns.count (i + 1) == 1

/-! ## Concrete fixtures -/

/-- Root model `users t0` with primary key `id`. -/
def usersRoot : ModelRef := ⟨"users", "t0", ⟨"t0", "id", "integer"⟩⟩

/-- Root model `orders t0` with primary key `_id`. -/
def ordersRoot : ModelRef := ⟨"orders", "t0", ⟨"t0", "_id", "uuid"⟩⟩

/-- A select plan whose only filter is `age between [18, 30]`,
pagination limit 10 offset 0. -/
def betweenPlan : QueryPlan :=
  { operation := "select"
    rootModel := usersRoot
    selectExprs := []
    filters := some (.comparison ⟨⟨"t0", "age", "integer"⟩, .between,
      some ⟨.listV [.intV 18, .intV 30]⟩⟩)
    groupBy := []
    aggregates := []
    sort := []
    pagination := ⟨10, 0⟩
    data := []
    id := none }

/-- A create plan whose data map is iterated `email` first. -/
def insertPlanA : QueryPlan :=
  { operation := "create"
    rootModel := usersRoot
    selectExprs := []
    filters := none
    groupBy := []
    aggregates := []
    sort := []
    pagination := ⟨100, 0⟩
    data := [("email", .str "a@b"), ("name", .str "A")]
    id := none }

/-- The same create plan with the other possible map iteration order,
`name` first. -/
def insertPlanB : QueryPlan :=
  { insertPlanA with data := [("name", .str "A"), ("email", .str "a@b")] }

/-- An update plan that carries only an id (no filters), as the validator
allows for update/delete. -/
def updateByIdPlan : QueryPlan :=
  { operation := "update"
    rootModel := usersRoot
    selectExprs := []
    filters := none
    groupBy := []
    aggregates := []
    sort := []
    pagination := ⟨100, 0⟩
    data := [("email", .str "new@example.com")]
    id := some (.str "user123") }

/-- A delete plan that carries only an id. -/
def deleteByIdPlan : QueryPlan :=
  { updateByIdPlan with operation := "delete", data := [] }

/-- A select plan with `group_by status` and a `count` aggregate. -/
def groupByPlan : QueryPlan :=
  { operation := "select"
    rootModel := ordersRoot
    selectExprs := []
    filters := none
    groupBy := [⟨⟨"t0", "status", "string"⟩⟩]
    aggregates := [⟨"count", none, "n"⟩]
    sort := []
    pagination := ⟨100, 0⟩
    data := []
    id := none }

/-- The UUID-equality end-to-end scenario of spec §8.4.1. -/
def uuidEqPlan : QueryPlan :=
  { operation := "select"
    rootModel := ordersRoot
    selectExprs := []
    filters := some (.comparison ⟨⟨"t0", "user_id", "uuid"⟩, .eq,
      some ⟨.str "11111111-1111-1111-1111-111111111111"⟩⟩)
    groupBy := []
    aggregates := []
    sort := []
    pagination := ⟨100, 0⟩
    data := []
    id := none }

/-- An `is_null` comparison: per spec §3.2 the operator carries no value. -/
def isNullFilter : ComparisonFilterIR := ⟨⟨"t0", "age", "integer"⟩, .isNull, none⟩

/-- A `not_null` comparison with no value. -/
def notNullFilter : ComparisonFilterIR := ⟨⟨"t0", "age", "integer"⟩, .notNull, none⟩

/-- Field statistics with an exact 50/50 integer/string split, the string
type iterated first, and integer-parsable string samples. -/
def fiftyFiftyStats : SchemaProc.FieldStats :=
  ⟨[("string", 1), ("integer", 1)], 2, 0, [.str "12", .str "34"]⟩

/-- 36 characters, four hyphens, no hexadecimal digits at all. -/
def nonHexStr : List Char := "zzzzzzzz-zzzz-zzzz-zzzz-zzzzzzzzzzzz".toList

/-- 36 characters, four hyphens, all hex, but groups of lengths 9-3-4-4-12. -/
def wrongGroupsStr : List Char := "123456789-123-1234-1234-123456789012".toList

/-! ## Claim theorems -/

theorem bfe_comparison (f : ComparisonFilterIR) (st : Pg.BState) :
    Pg.buildFilterExpression (.comparison f) st = Pg.buildComparisonFilter f st := by
  rw [Pg.buildFilterExpression]

theorem trimDollar_dollar (s : String) : Pg.trimDollar ("$" ++ s) = s := by
  cases s with
  | mk l => rfl

theorem updateSetsLoop_state (data : List (String × Val)) (st : Pg.BState) :
    (Pg.updateSetsLoop data st).2 =
      ⟨st.params ++ data.map Prod.snd, st.paramCount + data.length⟩ := by
  induction data generalizing st with
  | nil => simp [Pg.updateSetsLoop]
  | cons p rest ih =>
    simp [Pg.updateSetsLoop, ih]
    omega

theorem splitOnDash_ne_nil (s : List Char) : SchemaProc.splitOnDash s ≠ [] := by
  induction s with
  | nil => simp [SchemaProc.splitOnDash]
  | cons c rest ih =>
    simp only [SchemaProc.splitOnDash]
    split
    · simp
    · cases h : SchemaProc.splitOnDash rest with
      | nil => exact absurd h ih
      | cons g gs => simp [h]

theorem splitOnDash_length_sum (s : List Char) :
    s.length = ((SchemaProc.splitOnDash s).map List.length).sum
      + ((SchemaProc.splitOnDash s).length - 1) := by
  induction s with
  | nil => simp [SchemaProc.splitOnDash]
  | cons c rest ih =>
    have hne := splitOnDash_ne_nil rest
    simp only [SchemaProc.splitOnDash, List.length_cons]
    split
    · have hpos : 0 < (SchemaProc.splitOnDash rest).length := List.length_pos.mpr hne
      simp only [List.map_cons, List.sum_cons, List.length_cons, List.length_nil]
      omega
    · cases h : SchemaProc.splitOnDash rest with
      | nil => exact absurd h hne
      | cons g gs =>
        rw [h] at ih
        simp only [List.map_cons, List.sum_cons, List.length_cons] at ih ⊢
        omega

/-- C1: the claim — that every relational build has as many `$n`
placeholders as parameters, each of `1..len(params)` exactly once, with
`between` binding its pair as two parameters — fails: `between` pushes the
pair as a single parameter, increments the counter once, yet prints both
`$n` and `$n+1`, so the select below emits `… BETWEEN $1 AND $2 LIMIT $2
OFFSET $3` over only three parameters, reusing `$2`. -/
theorem c1_between_breaks_param_invariant :
    Pg.BuildQuery betweenPlan =
      .ok ("SELECT * FROM users t0 WHERE t0.age BETWEEN $1 AND $2 LIMIT $2 OFFSET $3;",
           [.listV [.intV 18, .intV 30], .intV 10, .intV 0])
    ∧ scanPlaceholders
        "SELECT * FROM users t0 WHERE t0.age BETWEEN $1 AND $2 LIMIT $2 OFFSET $3;".toList
        = [1, 2, 2, 3]
    ∧ paramInvariant
        "SELECT * FROM users t0 WHERE t0.age BETWEEN $1 AND $2 LIMIT $2 OFFSET $3;"
        [.listV [.intV 18, .intV 30], .intV 10, .intV 0] = false := by
  refine ⟨?_, by decide, by decide⟩
  simp only [Pg.BuildQuery, Pg.buildSelect, Pg.buildWhereClause, bfe_comparison, betweenPlan]
  rfl

/-- C2: the claim — byte-identical builder output across runs, create
fields in lexicographic key order — fails: `buildInsert` ranges over the
Go map `plan.Data`, whose iteration order is randomized, so the same plan
can yield either column order; in particular the non-lexicographic order
`(name, email)` is a possible run. -/
theorem c2_insert_order_nondeterministic :
    insertPlanB.data.Perm insertPlanA.data
    ∧ Pg.BuildQuery insertPlanA =
        .ok ("INSERT INTO users (email, name) VALUES ($1, $2) RETURNING *;",
             [.str "a@b", .str "A"])
    ∧ Pg.BuildQuery insertPlanB =
        .ok ("INSERT INTO users (name, email) VALUES ($1, $2) RETURNING *;",
             [.str "A", .str "a@b"])
    ∧ ("INSERT INTO users (email, name) VALUES ($1, $2) RETURNING *;" : String) ≠
        "INSERT INTO users (name, email) VALUES ($1, $2) RETURNING *;" := by
  exact ⟨List.Perm.swap _ _ _, rfl, rfl, by decide⟩

/-- C3: the claim — that the document builder falls back to the
primary-key filter `{ id → plan.id }` and never produces a match-all
filter for an id-only update/delete — fails: `buildUpdate`/`buildDelete`
compile the filter from `plan.Filters` alone, so a plan carrying only an
id gets the empty (match-all) filter `{}`. -/
theorem c3_update_delete_by_id_matchall_filter :
    Mongo.BuildQuery updateByIdPlan =
      .ok { collection := "users", operation := "update",
            filter := some (.doc []),
            pipeline := none,
            update := some (.doc [("$set", .doc [("email", .prim (.str "new@example.com"))])]),
            document := none, options := none }
    ∧ Mongo.BuildQuery deleteByIdPlan =
      .ok { collection := "users", operation := "delete",
            filter := some (.doc []),
            pipeline := none, update := none, document := none, options := none }
    ∧ updateByIdPlan.id = some (.str "user123") := by
  exact ⟨rfl, rfl, rfl⟩

/-- C5: the claim — that a select plan with group_by or aggregates yields
an `aggregate` command with a `$match`/`$group` pipeline — fails: the
MongoDB `BuildQuery` routes every select to `buildFindQuery`, which emits
operation `find` with no pipeline, silently dropping the grouping. -/
theorem c5_groupby_select_builds_find :
    Mongo.BuildQuery groupByPlan =
      .ok { collection := "orders", operation := "find",
            filter := some (.doc []),
            pipeline := none, update := none, document := none,
            options := some ⟨some 100, none, none⟩ }
    ∧ groupByPlan.groupBy ≠ [] ∧ groupByPlan.aggregates ≠ [] := by
  refine ⟨rfl, by simp [groupByPlan], by simp [groupByPlan]⟩

/-- C6: the claim — that `is_null`/`not_null` comparisons compile totally
to `$exists` filters without crash — fails: the MongoDB
`buildComparisonFilter` reads `f.Value.Value` before dispatching on the
operator, and for the no-value operators the value pointer is nil, so the
call panics; `convertOperator` itself would have handled both operators
(second and third conjuncts), but is never reached. -/
theorem c6_isnull_nil_dereference :
    Mongo.buildComparisonFilter isNullFilter = .nilDeref
    ∧ Mongo.buildComparisonFilter notNullFilter = .nilDeref
    ∧ Mongo.convertOperator "is_null" .nullV = .ok ("$exists", .boolV false)
    ∧ Mongo.convertOperator "not_null" .nullV = .ok ("$exists", .boolV true) := by
  exact ⟨rfl, rfl, rfl, rfl⟩

/-- C7 counterexample: statistics evenly split 50/50 between integer and
string whose string samples all parse as integers, with the string type
iterated first — a possible Go map order — resolve to `string`, not
`integer`: the numeric-string rescue only runs when the winner is
strictly below half, and a 50/50 tie is not. -/
theorem c7_fifty_fifty_can_resolve_string :
    SchemaProc.ResolveFieldType (some fiftyFiftyStats) = ("string", false)
    ∧ SchemaProc.areAllNumericStrings fiftyFiftyStats.sampleValues = true
    ∧ ("string" : String) ≠ "integer" := by
  refine ⟨?_, rfl, by decide⟩
  simp only [SchemaProc.ResolveFieldType, fiftyFiftyStats, SchemaProc.maxScan]
  norm_num

/-- C9 counterexample: `isUUID` classifies as uuid a 36-character,
four-hyphen string with no hexadecimal digit, and one with group lengths
9-3-4-4-12; both fail the canonical `8-4-4-4-12` hex shape the claim
requires. -/
theorem c9_nonhex_classified_as_uuid :
    SchemaProc.isUUID nonHexStr = true
    ∧ SchemaProc.specCanonicalUUIDShape nonHexStr = false
    ∧ SchemaProc.isUUID wrongGroupsStr = true
    ∧ SchemaProc.specCanonicalUUIDShape wrongGroupsStr = false := by
  refine ⟨by decide, by decide, by decide, by decide⟩

/-- C4: a comparison with operator `=`, `≠`, `in` or `not_in` on a column
of data type uuid/json/binary/timestamp emits its placeholder with the
cast suffix `::uuid`/`::jsonb`/`::bytea`/`::timestamp` respectively, and
binds the value as the next parameter; a magnitude comparison
(`> ≥ < ≤`) emits the bare placeholder with no cast; and the UUID
end-to-end scenario compiles to
`SELECT * FROM orders t0 WHERE t0.user_id = $1::uuid LIMIT $2 OFFSET $3;`. -/
theorem c4_cast_placement (f : ComparisonFilterIR) (st : Pg.BState) (v : ValueIR)
    (hv : f.value = some v) :
    ((f.operator = .eq ∨ f.operator = .ne ∨ f.operator = .inOp ∨ f.operator = .notIn) →
      (f.left.dataType = "uuid" ∨ f.left.dataType = "json" ∨
        f.left.dataType = "binary" ∨ f.left.dataType = "timestamp") →
      ∃ pre suf, Pg.buildComparisonFilter f st =
        .ok (pre ++ ("$" ++ toString (st.paramCount + 1) ++ "::" ++
              Pg.getPostgreSQLType f.left.dataType) ++ suf,
             ⟨st.params ++ [v.value], st.paramCount + 1⟩))
    ∧ ((f.operator = .gt ∨ f.operator = .gte ∨ f.operator = .lt ∨ f.operator = .lte) →
      ∃ sym, (sym = " > $" ∨ sym = " >= $" ∨ sym = " < $" ∨ sym = " <= $") ∧
        Pg.buildComparisonFilter f st =
          .ok (f.left.tableAlias ++ "." ++ f.left.columnName ++ sym ++
                toString (st.paramCount + 1),
               ⟨st.params ++ [v.value], st.paramCount + 1⟩))
    ∧ Pg.BuildQuery uuidEqPlan =
        .ok ("SELECT * FROM orders t0 WHERE t0.user_id = $1::uuid LIMIT $2 OFFSET $3;",
             [.str "11111111-1111-1111-1111-111111111111", .intV 100, .intV 0]) := by
  refine ⟨?_, ?_, ?_⟩
  · intro hop hdt
    rcases hop with h | h | h | h <;>
      [refine ⟨f.left.tableAlias ++ "." ++ f.left.columnName ++ " = ", "", ?_⟩;
       refine ⟨f.left.tableAlias ++ "." ++ f.left.columnName ++ " != ", "", ?_⟩;
       refine ⟨f.left.tableAlias ++ "." ++ f.left.columnName ++ " = ANY(", ")", ?_⟩;
       refine ⟨f.left.tableAlias ++ "." ++ f.left.columnName ++ " != ALL(", ")", ?_⟩] <;>
    rcases hdt with h2 | h2 | h2 | h2 <;>
    simp [Pg.buildComparisonFilter, h, hv, h2, Pg.needsTypeCasting, Pg.addTypeCast,
      Pg.getPostgreSQLType, trimDollar_dollar, String.append_assoc, String.append_empty]
  · intro hop
    rcases hop with h | h | h | h <;>
      [exact ⟨" > $", Or.inl rfl, by simp [Pg.buildComparisonFilter, h, hv]⟩;
       exact ⟨" >= $", Or.inr (Or.inl rfl), by simp [Pg.buildComparisonFilter, h, hv]⟩;
       exact ⟨" < $", Or.inr (Or.inr (Or.inl rfl)), by simp [Pg.buildComparisonFilter, h, hv]⟩;
       exact ⟨" <= $", Or.inr (Or.inr (Or.inr rfl)), by simp [Pg.buildComparisonFilter, h, hv]⟩]
  · simp only [Pg.BuildQuery, Pg.buildSelect, Pg.buildWhereClause, bfe_comparison, uuidEqPlan]
    rfl

/-- Witness for C4 at a concrete uuid-equality comparison. -/
theorem c4_cast_placement_witness :
    ∃ pre suf,
      Pg.buildComparisonFilter
        ⟨⟨"t0", "user_id", "uuid"⟩, .eq, some ⟨.str "u"⟩⟩ ⟨[], 0⟩ =
      .ok (pre ++ ("$" ++ toString (0 + 1) ++ "::" ++ Pg.getPostgreSQLType "uuid") ++ suf,
           ⟨[.str "u"], 0 + 1⟩) :=
  (c4_cast_placement ⟨⟨"t0", "user_id", "uuid"⟩, .eq, some ⟨.str "u"⟩⟩ ⟨[], 0⟩
    ⟨.str "u"⟩ rfl).1 (Or.inl rfl) (Or.inl rfl)

/-- C7 amended: at an exact 50/50 split of the type counts the rescue
branch (which requires the winner to be strictly below half of
`total_count`) is skipped, and resolution returns whichever tied type the
map iteration visits first — `string` when string is first, `integer`
when integer is first — regardless of the samples. -/
theorem c7_tie_first_listed_wins (a b : String) (samples : List Val) (c : Nat)
    (hc : 0 < c) :
    SchemaProc.ResolveFieldType (some ⟨[(a, c), (b, c)], 2 * c, 0, samples⟩) = (a, false) := by
  have hdiv : 2 * c / 2 = c := Nat.mul_div_cancel_left c (by norm_num)
  have hnn : ¬ ((0 : ℚ) > (2 * c : ℚ) * (1 / 10)) := by
    simp only [gt_iff_lt, not_lt]
    positivity
  simp [SchemaProc.ResolveFieldType, SchemaProc.maxScan, hc, hdiv, lt_irrefl, hnn]

/-- Witness for C7 amended: with integer iterated first the tie resolves
to integer. -/
theorem c7_tie_first_listed_wins_witness :
    0 < 1 ∧
      SchemaProc.ResolveFieldType
        (some ⟨[("integer", 1), ("string", 1)], 2 * 1, 0, [.str "12", .str "34"]⟩) =
      ("integer", false) :=
  ⟨by norm_num,
   c7_tie_first_listed_wins "integer" "string" [.str "12", .str "34"] 1 (by norm_num)⟩

/-- C8: for statistics with at least one observed type (and hence a
positive total count), the resolved field is nullable exactly when
`null_count / total_count` strictly exceeds 1/10. -/
theorem c8_nullability_threshold (s : SchemaProc.FieldStats)
    (h1 : s.typeCounts ≠ []) (h2 : 0 < s.totalCount) :
    ((SchemaProc.ResolveFieldType (some s)).2 = true ↔
      (s.nullCount : ℚ) / (s.totalCount : ℚ) > 1 / 10) := by
  have hE : s.typeCounts.isEmpty = false := by
    cases hc : s.typeCounts with
    | nil => exact absurd hc h1
    | cons p l => rfl
  have hsnd : (SchemaProc.ResolveFieldType (some s)).2
      = decide ((s.nullCount : ℚ) > (s.totalCount : ℚ) * (1 / 10)) := by
    simp only [SchemaProc.ResolveFieldType, hE, Bool.false_eq_true, if_false]
    cases hms : SchemaProc.maxScan s.typeCounts with
    | mk mc mt => split_ifs <;> rfl
  rw [hsnd, decide_eq_true_eq]
  have ht : (0 : ℚ) < (s.totalCount : ℚ) := by exact_mod_cast h2
  rw [gt_iff_lt, gt_iff_lt, lt_div_iff₀ ht, mul_comm]

/-- Witness for C8: 2 nulls out of 10 is above the 10% threshold, so the
field is nullable. -/
theorem c8_nullability_threshold_witness :
    (([("string", 8)] : List (String × Nat)) ≠ [] ∧ 0 < (10 : Nat)) ∧
      ((SchemaProc.ResolveFieldType (some ⟨[("string", 8)], 10, 2, []⟩)).2 = true ↔
        ((2 : Nat) : ℚ) / ((10 : Nat) : ℚ) > 1 / 10) :=
  ⟨⟨by decide, by decide⟩,
   c8_nullability_threshold ⟨[("string", 8)], 10, 2, []⟩ (by decide) (by decide)⟩

/-- C9 amended: every string of the canonical 8-4-4-4-12 hex shape is
classified as uuid, but the converse fails: the probe checks only the
length (36) and the number of hyphen-separated groups (5), not hexness or
group lengths (counterexamples above). -/
theorem c9_canonical_hex_implies_uuid (s : List Char)
    (h : SchemaProc.specCanonicalUUIDShape s = true) :
    SchemaProc.isUUID s = true := by
  unfold SchemaProc.specCanonicalUUIDShape at h
  rw [Bool.and_eq_true] at h
  obtain ⟨h1, _⟩ := h
  rw [decide_eq_true_eq] at h1
  have hlen5 : (SchemaProc.splitOnDash s).length = 5 := by
    have := congrArg List.length h1
    simpa using this
  have hsum : ((SchemaProc.splitOnDash s).map List.length).sum = 32 := by
    rw [h1]; rfl
  have hl := splitOnDash_length_sum s
  rw [hlen5, hsum] at hl
  unfold SchemaProc.isUUID
  rw [hlen5, hl]
  rfl

/-- A canonical 8-4-4-4-12 hex UUID string. -/
def canonicalUuidStr : List Char := "11111111-1111-1111-1111-111111111111".toList

/-- Witness for C9 amended at a canonical UUID string. -/
theorem c9_canonical_hex_implies_uuid_witness :
    SchemaProc.specCanonicalUUIDShape canonicalUuidStr = true ∧
      SchemaProc.isUUID canonicalUuidStr = true :=
  ⟨by decide, c9_canonical_hex_implies_uuid canonicalUuidStr (by decide)⟩

/-- C10: when an update or delete plan carries both an id and filters,
the relational builder emits only the primary-key selector
`WHERE <pk> = $n` bound to the id — the build is identical to the build
of the same plan with its filters removed, so the compiled filter
expression appears nowhere in the SQL. -/
theorem c10_id_precedence (plan : QueryPlan) (i : Val) (fe : FilterExpr)
    (hid : plan.id = some i) (_hf : plan.filters = some fe)
    (hop : plan.operation = "update" ∨ plan.operation = "delete") :
    Pg.BuildQuery plan = Pg.BuildQuery { plan with filters := none }
    ∧ (plan.operation = "delete" →
        Pg.BuildQuery plan =
          .ok ("DELETE FROM " ++ plan.rootModel.table ++ " " ++
                ("WHERE " ++ plan.rootModel.primaryKey.columnName ++ " = $" ++ toString 1) ++ ";",
               [i]))
    ∧ (plan.operation = "update" → plan.data ≠ [] →
        ∃ pre, Pg.BuildQuery plan =
          .ok (pre ++
                ("WHERE " ++ plan.rootModel.primaryKey.columnName ++ " = $" ++
                  toString (plan.data.length + 1)) ++ " RETURNING *;",
               plan.data.map Prod.snd ++ [i])) := by
  refine ⟨?_, ?_, ?_⟩
  · rcases hop with h | h
    · cases hd : plan.data.isEmpty <;>
        simp [Pg.BuildQuery, h, Pg.buildUpdate, hid, hd]
    · simp [Pg.BuildQuery, h, Pg.buildDelete, hid]
  · intro h
    simp [Pg.BuildQuery, h, Pg.buildDelete, hid]
  · intro h hd
    have hd2 : plan.data.isEmpty = false := by
      cases hq : plan.data with
      | nil => exact absurd hq hd
      | cons a l => rfl
    refine ⟨"UPDATE " ++ plan.rootModel.table ++ " SET " ++
      String.intercalate ", " (Pg.updateSetsLoop plan.data ⟨[], 0⟩).1 ++ " ", ?_⟩
    have hloop := updateSetsLoop_state plan.data (⟨[], 0⟩ : Pg.BState)
    simp [Pg.BuildQuery, h, Pg.buildUpdate, hid, hd2]
    cases hq : Pg.updateSetsLoop plan.data ⟨[], 0⟩ with
    | mk sets stq =>
      rw [hq] at hloop
      simp at hloop
      simp [hloop, String.append_assoc]

/-- An update plan carrying both an id and filters. -/
def bothSelectorsPlan : QueryPlan :=
  { operation := "update"
    rootModel := usersRoot
    selectExprs := []
    filters := some (.comparison ⟨⟨"t0", "age", "integer"⟩, .gt, some ⟨.intV 18⟩⟩)
    groupBy := []
    aggregates := []
    sort := []
    pagination := ⟨100, 0⟩
    data := [("name", .str "X")]
    id := some (.intV 7) }

/-- Witness for C10: with both selectors set, the build equals the build
with filters removed. -/
theorem c10_id_precedence_witness :
    Pg.BuildQuery bothSelectorsPlan = Pg.BuildQuery { bothSelectorsPlan with filters := none } :=
  (c10_id_precedence bothSelectorsPlan (.intV 7)
    (.comparison ⟨⟨"t0", "age", "integer"⟩, .gt, some ⟨.intV 18⟩⟩)
    rfl rfl (Or.inl rfl)).1

end Udv
